import Mathlib

/-
Verification of the swagger document compiler (`src/compiler.ts`).

The compiler turns a swagger document into:
  * a validator attached to every parameter (with string coercion for
    query/header parameters, via `stringValidator`) and every response;
  * a list of compiled path matchers (regex built from basePath and the
    path template, with placeholder segments replaced by a wildcard);
  * a dispatcher that maps a concrete request path to the unique matching
    compiled path, or to no match.

JavaScript dynamic values are embedded as the inductive type `JSVal`; a
JavaScript number is `JSNum` (NaN or a finite value, represented as a
rational — every value reachable in this development is integral, and the
string rendering of numbers is exact for integral values).
-/

namespace Swagger

/-- A JavaScript number: NaN or a finite value. -/
inductive JSNum where
  | nan
  | fin (q : Rat)

def JSNum.isNaN : JSNum → Bool
  | .nan => true
  | .fin _ => false

/-- A JavaScript dynamic value, as delivered to the compiled validators. -/
inductive JSVal where
  | undef
  | null
  | bool (b : Bool)
  | num (n : JSNum)
  | str (s : String)
  | arr (elems : List JSVal)

/-- Whitespace trimmed by JavaScript string-to-number conversion. -/
def isWS (c : Char) : Bool :=
  c == ' ' || c == '\t' || c == '\n' || c == '\r' || c == '\x0c'

def isDigit (c : Char) : Bool :=
  '0' ≤ c && c ≤ '9'

def digitsToNat (ds : List Char) : Nat :=
  ds.foldl (fun n c => 10 * n + (c.toNat - '0'.toNat)) 0

/-- Parse an unsigned decimal numeric literal (digits, optionally with a
fractional part), as accepted by JavaScript ToNumber on strings. -/
def parseUnsigned (cs : List Char) : Option Rat :=
  let intPart := cs.takeWhile isDigit
  let rest := cs.drop intPart.length
  match rest with
  | [] => if intPart.isEmpty then none else some ((digitsToNat intPart : Nat) : Rat)
  | c :: fracPart =>
    if c == '.' && fracPart.all isDigit && !(intPart.isEmpty && fracPart.isEmpty) then
      some ((digitsToNat intPart : Rat) + (digitsToNat fracPart : Rat) / ((10 : Rat) ^ fracPart.length))
    else none

/-- JavaScript ToNumber on a string: trims whitespace, the empty string is 0,
an optionally signed decimal literal is its value, anything else is NaN. -/
def jsStringToNumber (s : String) : JSNum :=
  let t := ((s.toList.dropWhile isWS).reverse.dropWhile isWS).reverse
  if t.isEmpty then .fin 0
  else
    match t with
    | '+' :: body =>
      match parseUnsigned body with
      | some q => .fin q
      | none => .nan
    | '-' :: body =>
      match parseUnsigned body with
      | some q => .fin (-q)
      | none => .nan
    | body =>
      match parseUnsigned body with
      | some q => .fin q
      | none => .nan

/-- Render a JavaScript number as a string (exact for NaN and integral values). -/
def jsNumToString (n : JSNum) : String :=
  match n with
  | .nan => "NaN"
  | .fin q => if q.den == 1 then toString q.num else toString q

mutual

/-- JavaScript String(value). Arrays render as their elements joined by
commas, with undefined/null elements rendered as the empty string. -/
def jsToString : JSVal → String
  | .undef => "undefined"
  | .null => "null"
  | .bool true => "true"
  | .bool false => "false"
  | .num n => jsNumToString n
  | .str s => s
  | .arr xs => String.intercalate "," (jsElemStrings xs)

def jsElemStrings : List JSVal → List String
  | [] => []
  | .undef :: xs => "" :: jsElemStrings xs
  | .null :: xs => "" :: jsElemStrings xs
  | x :: xs => jsToString x :: jsElemStrings xs

end

/-- JavaScript ToNumber, as used by `isNaN(value)` and the unary plus. -/
def jsToNumber : JSVal → JSNum
  | .undef => .nan
  | .null => .fin 0
  | .bool b => .fin (if b then 1 else 0)
  | .num n => n
  | .str s => jsStringToNumber s
  | .arr xs => jsStringToNumber (jsToString (.arr xs))

/-- The number/integer coercion step of `stringValidator`:
`if (!isNaN(value)) value = +value`. -/
def coerceNumber (value : JSVal) : JSVal :=
  if (jsToNumber value).isNaN then value else .num (jsToNumber value)

/-- The boolean coercion step of `stringValidator`: the literal strings
"true" and "false" become booleans, everything else is left as-is. -/
def coerceBoolean (value : JSVal) : JSVal :=
  match value with
  | .str "true" => .bool true
  | .str "false" => .bool false
  | v => v

/-- Element-wise coercion applied to array elements according to the
declared `items.type` (the two `value.map` calls in `stringValidator`). -/
def coerceItem (itemType : Option String) (elem : JSVal) : JSVal :=
  if itemType = some "number" ∨ itemType = some "integer" then coerceNumber elem
  else if itemType = some "boolean" then coerceBoolean elem
  else elem

/-- `schema.collectionFormat || 'csv'` (the empty string is falsy). -/
def formatOf : Option String → String
  | none => "csv"
  | some f => if f == "" then "csv" else f

/-- JavaScript `String.prototype.split` with a one-character separator:
the empty string yields one empty segment, every occurrence of the
separator starts a new segment. -/
def jsSplit (sep : Char) : List Char → List (List Char)
  | [] => [[]]
  | c :: cs =>
    match jsSplit sep cs with
    | [] => [[c]]
    | h :: t => if c == sep then [] :: h :: t else (c :: h) :: t

/-- The collection-format split of a non-array value in `stringValidator`:
csv/ssv/tsv/pipes stringify and split; multi and any unrecognized format
wrap the raw value in a one-element list. -/
def splitByFormat (format : String) (value : JSVal) : List JSVal :=
  if format == "csv" then (jsSplit ',' (jsToString value).toList).map (fun l => .str (String.mk l))
  else if format == "ssv" then (jsSplit ' ' (jsToString value).toList).map (fun l => .str (String.mk l))
  else if format == "tsv" then (jsSplit '\t' (jsToString value).toList).map (fun l => .str (String.mk l))
  else if format == "pipes" then (jsSplit '|' (jsToString value).toList).map (fun l => .str (String.mk l))
  else [value]

/-- The array elements `stringValidator` works on: an array value is used
as-is; any other value is split according to the collection format. -/
def arrayElems (collectionFormat : Option String) (value : JSVal) : List JSVal :=
  match value with
  | .arr xs => xs
  | v => splitByFormat (formatOf collectionFormat) v

/-- The `items` sub-schema of an array-typed parameter schema. -/
structure Items where
  type : Option String

/-- The schema fragment `stringValidator` closes over: the fields of the
parameter itself (or of its nested `schema` object). -/
structure Schema where
  type : Option String
  required : Bool
  items : Option Items
  collectionFormat : Option String

/-- The body of the validator returned by `stringValidator`, for a value
that is not `undefined`: the switch on `schema.type`. Accessing
`schema.items.type` when `schema.items` is absent is a thrown TypeError,
modelled as `.error ()`. -/
def stringValidatorBody (schema : Schema) (validator : JSVal → Bool) (value : JSVal) :
    Except Unit Bool :=
  if schema.type = some "number" ∨ schema.type = some "integer" then
    .ok (validator (coerceNumber value))
  else if schema.type = some "boolean" then
    .ok (validator (coerceBoolean value))
  else if schema.type = some "array" then
    match schema.items with
    | none => .error ()
    | some items =>
      .ok (validator (.arr ((arrayElems schema.collectionFormat value).map (coerceItem items.type))))
  else .ok (validator value)

/-- `stringValidator(schema)` applied to `value`, given the underlying
schema validator: an absent (undefined) value short-circuits on
`!schema.required`; otherwise the value is coerced per the schema type and
handed to the underlying validator. -/
def stringValidator (schema : Schema) (validator : JSVal → Bool) : JSVal → Except Unit Bool
  | .undef => .ok (!schema.required)
  | value => stringValidatorBody schema validator value

/-- Modelled from the spec: the type check performed by the external
validator-generator collaborator (`is-my-json-valid`, not part of this
repository's source) for a primitive declared type, per the spec contract
"(schemaFragment) -> (value) -> bool", assumed total. -/
def primTypeCheck (t : Option String) (v : JSVal) : Bool :=
  if t = some "number" then (match v with | .num _ => true | _ => false)
  else if t = some "integer" then (match v with | .num (.fin q) => q.den == 1 | _ => false)
  else if t = some "boolean" then (match v with | .bool _ => true | _ => false)
  else if t = some "string" then (match v with | .str _ => true | _ => false)
  else true

/-- Modelled from the spec: the external validator-generator collaborator
(`is-my-json-valid`, not part of this repository's source), restricted to
the schema shapes exercised here: a declared primitive type checks the
value's type; a declared array type requires an array whose elements all
satisfy the declared item type. -/
def jsonValidator (schema : Schema) (v : JSVal) : Bool :=
  if schema.type = some "array" then
    match v with
    | .arr xs =>
      (match schema.items with
       | some it => xs.all (primTypeCheck it.type)
       | none => true)
    | _ => false
  else primTypeCheck schema.type v

/-- The validator attached to a response that declares no schema:
`body === undefined || body === null || body === ''`. -/
def noSchemaResponseValidator : JSVal → Bool
  | .undef => true
  | .null => true
  | .str s => s == ""
  | _ => false

/-- A token of the compiled path pattern: a literal character, or the
wildcard `[^/]+` that replaces a `{...}` placeholder. -/
inductive PatTok where
  | lit (c : Char)
  | wild

/-- Match a token list against exactly the given characters: literals match
themselves, a wildcard consumes one or more characters none of which is
a slash (with backtracking, as the regex engine does). -/
def matchToks : List PatTok → List Char → Bool
  | [], [] => true
  | [], _ :: _ => false
  | .lit _ :: _, [] => false
  | .lit c :: ts, d :: ds => c == d && matchToks ts ds
  | .wild :: ts, ds =>
    (List.range ds.length).any fun k =>
      (ds.take (k + 1)).all (fun c => c != '/') && matchToks ts (ds.drop (k + 1))

/-- Unanchored regex search with a trailing end-of-string anchor: since the
compiled pattern carries a `$` but no `^`, the pattern matches the path
iff some suffix of the path matches the whole token list. -/
def regexSearch (toks : List PatTok) (path : List Char) : Bool :=
  (List.range (path.length + 1)).any fun i => matchToks toks (path.drop i)

/-- The global replacement of `name.replace(/\x7b[^\x7d]*\x7d/g, '[^/]+')`:
every brace group with a closing brace becomes a wildcard token, all other
characters stay literal. The fuel is an upper bound on the steps; each
step consumes at least one character. -/
def replaceBracesAux : Nat → List Char → List PatTok
  | 0, _ => []
  | _, [] => []
  | fuel + 1, c :: rest =>
    if c == '\x7b' && rest.contains '\x7d' then
      PatTok.wild :: replaceBracesAux fuel ((rest.dropWhile (fun d => d != '\x7d')).drop 1)
    else
      PatTok.lit c :: replaceBracesAux fuel rest

def replaceBraces (s : String) : List PatTok :=
  replaceBracesAux s.length s.toList

def litToks (s : String) : List PatTok :=
  s.toList.map .lit

/-- The pattern of `new RegExp(basePath + name.replace(..) + '$')`: the
basePath literally, then the template with placeholders as wildcards. -/
def compilePattern (basePath : String) (name : String) : List PatTok :=
  litToks basePath ++ replaceBraces name

/-- `(name.match(/[^\/]+/g) || [])`: the maximal slash-free tokens of the
path template. -/
def expectedTokens (name : String) : List String :=
  ((jsSplit '/' name.toList).filter (fun l => !l.isEmpty)).map String.mk

/-- A compiled path entry (the `path` reference to the PathItem is carried
separately by the compiled document). -/
structure CompiledPath where
  name : String
  pattern : List PatTok
  expected : List String

/-- The matcher list built by `compile` from the path template names. -/
def compileMatcher (basePath : String) (pathNames : List String) : List CompiledPath :=
  pathNames.map fun n =>
    { name := n, pattern := compilePattern basePath n, expected := expectedTokens n }

/-- The dispatcher returned by `compile`: filter the matcher list by regex
match; unless exactly one entry matches, report no match. -/
def dispatch (matcher : List CompiledPath) (path : String) : Option CompiledPath :=
  let ms := matcher.filter fun m => regexSearch m.pattern path.toList
  if ms.length = 1 then ms.head? else none

/-- A swagger parameter: its location (`in`), its own inline schema fields,
and the optional nested `schema` object used by body parameters. -/
structure Parameter where
  name : String
  «in» : String
  required : Bool
  type : Option String
  items : Option Items
  collectionFormat : Option String
  schema : Option Schema

/-- A swagger response: an optional schema. -/
structure Response where
  schema : Option Schema

/-- A swagger operation: optional parameter list and responses by status. -/
structure Operation where
  parameters : Option (List Parameter)
  responses : List (String × Response)

/-- A path item: operations by method name. -/
structure PathItem where
  operations : List (String × Operation)

/-- A swagger document (already dereferenced). -/
structure Document where
  basePath : String
  paths : List (String × PathItem)

/-- `let schema = parameter.schema || parameter`. -/
def effectiveSchema (p : Parameter) : Schema :=
  match p.schema with
  | some s => s
  | none =>
    { type := p.type, required := p.required, items := p.items,
      collectionFormat := p.collectionFormat }

/-- A parameter with its attached validator. Query/header validators may
throw (modelled in `Except`); the plain schema validator is total. -/
structure CompiledParameter where
  param : Parameter
  validator : JSVal → Except Unit Bool

/-- A response with its attached validator. -/
structure CompiledResponse where
  resp : Response
  validator : JSVal → Bool

/-- The per-parameter branch of the attachment pass: query/header
parameters get `stringValidator`, every other location gets the plain
schema validator. -/
def compileParameter (p : Parameter) : CompiledParameter :=
  if p.«in» == "query" || p.«in» == "header" then
    { param := p,
      validator := stringValidator (effectiveSchema p) (jsonValidator (effectiveSchema p)) }
  else
    { param := p, validator := fun v => .ok (jsonValidator (effectiveSchema p) v) }

/-- The per-response branch of the attachment pass: a declared schema gets
the plain schema validator, no schema gets the strict no-body predicate. -/
def compileResponse (r : Response) : CompiledResponse :=
  match r.schema with
  | some s => { resp := r, validator := jsonValidator s }
  | none => { resp := r, validator := noSchemaResponseValidator }

structure CompiledOperation where
  parameters : List CompiledParameter
  responses : List (String × CompiledResponse)

/-- `(operation.parameters || []).forEach(...)` and the responses walk. -/
def compileOperation (op : Operation) : CompiledOperation :=
  { parameters := (op.parameters.getD []).map compileParameter,
    responses := op.responses.map fun sr => (sr.1, compileResponse sr.2) }

structure CompiledPathItem where
  operations : List (String × CompiledOperation)

def compilePathItem (pi : PathItem) : CompiledPathItem :=
  { operations := pi.operations.map fun oop => (oop.1, compileOperation oop.2) }

/-- The compiled document: validators attached throughout, plus the path
matcher list the returned dispatcher closes over. -/
structure CompiledDocument where
  paths : List (String × CompiledPathItem)
  matcher : List CompiledPath

/-- The `compile` entry point (on an already dereferenced document). -/
def compile (d : Document) : CompiledDocument :=
  { paths := d.paths.map fun np => (np.1, compilePathItem np.2),
    matcher := compileMatcher d.basePath (d.paths.map Prod.fst) }

/-! ## Concrete schemas used by the claims -/

/-- The schema fragment of the spec example, a non-required number. -/
def numberSchema : Schema :=
  { type := some "number", required := false, items := none, collectionFormat := none }

/-- A required number schema, to show that null is not treated as absent. -/
def requiredNumberSchema : Schema :=
  { type := some "number", required := true, items := none, collectionFormat := none }

/-- Array of numbers with the default (csv) collection format. -/
def arrayNumberSchema : Schema :=
  { type := some "array", required := false, items := some { type := some "number" },
    collectionFormat := none }

/-- Array of numbers with the pipes collection format. -/
def arrayNumberPipes : Schema :=
  { type := some "array", required := false, items := some { type := some "number" },
    collectionFormat := some "pipes" }

/-- Array of numbers with the ssv collection format. -/
def arrayNumberSsv : Schema :=
  { type := some "array", required := false, items := some { type := some "number" },
    collectionFormat := some "ssv" }

/-- Array of booleans with the default collection format. -/
def arrayBooleanSchema : Schema :=
  { type := some "array", required := false, items := some { type := some "boolean" },
    collectionFormat := none }

/-! ## Helper lemmas -/

theorem stringValidator_ne_undef (s : Schema) (v : JSVal → Bool) :
    ∀ value : JSVal, value ≠ .undef →
      stringValidator s v value = stringValidatorBody s v value := by
  intro value h
  cases value <;> first | exact absurd rfl h | rfl

theorem stringValidatorBody_isOk (s : Schema) (v : JSVal → Bool) (value : JSVal)
    (h : s.type = some "array" → s.items ≠ none) :
    ∃ b : Bool, stringValidatorBody s v value = .ok b := by
  unfold stringValidatorBody
  split
  · exact ⟨_, rfl⟩
  · split
    · exact ⟨_, rfl⟩
    · split
      · rename_i hty
        cases hit : s.items with
        | none => exact absurd hit (h hty)
        | some it => exact ⟨_, rfl⟩
      · exact ⟨_, rfl⟩

theorem compileParameter_param (p : Parameter) : (compileParameter p).param = p := by
  unfold compileParameter
  split <;> rfl

theorem compileResponse_resp (r : Response) : (compileResponse r).resp = r := by
  obtain ⟨s⟩ := r
  cases s <;> rfl

/-! ## Claims -/

/-- C1: a query/header parameter validator applied to an absent (undefined)
value returns true exactly when the parameter is not required and false
exactly when it is required, regardless of the declared schema type; the
underlying schema validator is never invoked in this case (the result does
not depend on it). -/
theorem stringValidator_absent_value :
    ∀ (schema : Schema) (v : JSVal → Bool),
      stringValidator schema v .undef = .ok (!schema.required)
      ∧ ∀ v₂ : JSVal → Bool,
          stringValidator schema v .undef = stringValidator schema v₂ .undef :=
  fun _ _ => ⟨rfl, fun _ => rfl⟩

/-- C2: for a number/integer schema the value handed to the underlying
validator is its numeric conversion exactly when it is numeric-parseable
(not NaN under ToNumber), and the value unchanged otherwise; validating
the string "5" against a number schema returns true and "abc" returns
false. -/
theorem stringValidator_number_coercion :
    (∀ (s : Schema) (v : JSVal → Bool) (value : JSVal),
        (s.type = some "number" ∨ s.type = some "integer") → value ≠ .undef →
        stringValidator s v value =
          .ok (v (if (jsToNumber value).isNaN then value else .num (jsToNumber value))))
    ∧ stringValidator numberSchema (jsonValidator numberSchema) (.str "5") = .ok true
    ∧ stringValidator numberSchema (jsonValidator numberSchema) (.str "abc") = .ok false := by
  refine ⟨?_, rfl, rfl⟩
  intro s v value hty hv
  obtain ⟨ty, req, its, cf⟩ := s
  rw [stringValidator_ne_undef _ _ _ hv]
  rcases hty with h | h <;>
    (replace h : ty = _ := h; subst h) <;> rfl

/-- C2 witness. -/
theorem stringValidator_number_coercion_witness :
    stringValidator numberSchema (fun _ => true) (.str "7") = .ok true := by
  have h := stringValidator_number_coercion.1 numberSchema (fun _ => true) (.str "7")
    (Or.inl rfl) (fun hc => by cases hc)
  simpa using h

/-- C3: for an array schema, a non-array value is stringified and split
according to the collection format (default csv; csv on comma, ssv on a
single space, tsv on tab, pipes on the pipe character; multi or any
unrecognized format wraps the single value), then the declared item-type
coercion is applied to every element before delegation; the spec's csv,
pipes and ssv examples validate to true. -/
theorem stringValidator_array_split :
    (∀ (s : Schema) (v : JSVal → Bool) (value : JSVal) (it : Items),
        s.type = some "array" → s.items = some it →
        (∀ xs, value ≠ .arr xs) → value ≠ .undef →
        stringValidator s v value =
          .ok (v (.arr ((splitByFormat (formatOf s.collectionFormat) value).map
            (coerceItem it.type)))))
    ∧ splitByFormat "csv" (.str "1,2,3") = [.str "1", .str "2", .str "3"]
    ∧ splitByFormat "ssv" (.str "1 2 3") = [.str "1", .str "2", .str "3"]
    ∧ splitByFormat "tsv" (.str "1\t2") = [.str "1", .str "2"]
    ∧ splitByFormat "pipes" (.str "1|2|3") = [.str "1", .str "2", .str "3"]
    ∧ splitByFormat "multi" (.str "1,2") = [.str "1,2"]
    ∧ splitByFormat "mystery" (.str "1,2") = [.str "1,2"]
    ∧ formatOf none = "csv"
    ∧ stringValidator arrayNumberSchema (jsonValidator arrayNumberSchema) (.str "1,2,3") = .ok true
    ∧ stringValidator arrayNumberPipes (jsonValidator arrayNumberPipes) (.str "1|2|3") = .ok true
    ∧ stringValidator arrayNumberSsv (jsonValidator arrayNumberSsv) (.str "1 2 3") = .ok true := by
  refine ⟨?_, rfl, rfl, rfl, rfl, rfl, rfl, rfl, rfl, rfl, rfl⟩
  intro s v value it hty hit hna hv
  obtain ⟨ty, req, its, cf⟩ := s
  rw [stringValidator_ne_undef _ _ _ hv]
  replace hty : ty = some "array" := hty
  replace hit : its = some it := hit
  subst hty; subst hit
  cases value <;> first | exact absurd rfl hv | exact absurd rfl (hna _) | rfl

/-- C3 witness. -/
theorem stringValidator_array_split_witness :
    stringValidator arrayNumberSchema (fun _ => true) (.str "4,5") = .ok true := by
  have h := stringValidator_array_split.1 arrayNumberSchema (fun _ => true) (.str "4,5")
    { type := some "number" } rfl rfl (fun xs hc => by cases hc) (fun hc => by cases hc)
  simpa using h

/-- C4: the validator attached to a response that declares no schema
returns true exactly when the body is undefined, null, or the empty
string, and false for every other body value. -/
theorem response_noSchema_validator :
    ∀ r : Response, r.schema = none →
      ∀ body : JSVal,
        ((compileResponse r).validator body = true ↔
          (body = .undef ∨ body = .null ∨ body = .str "")) := by
  intro r hr body
  obtain ⟨s⟩ := r
  replace hr : s = none := hr
  subst hr
  cases body <;> simp [compileResponse, noSchemaResponseValidator]

/-- C4 witness. -/
theorem response_noSchema_validator_witness :
    (compileResponse { schema := none }).validator .null = true :=
  (response_noSchema_validator { schema := none } rfl .null).mpr (Or.inr (Or.inl rfl))

/-- C5: the compiled pattern for a path template is the basePath as
literals followed by the template with every placeholder replaced by a
wildcard over non-slash characters; it is end-anchored but not
start-anchored, so "/users/\x7bid\x7d" under basePath "/api" matches
"/api/users/42", rejects "/api/users/42/extra" and the empty segment, and
still matches as a suffix of a longer string. -/
theorem pathPattern_matching :
    compilePattern "/api" "/users/{id}" = litToks "/api/users/" ++ [PatTok.wild]
    ∧ regexSearch (compilePattern "/api" "/users/{id}") "/api/users/42".toList = true
    ∧ regexSearch (compilePattern "/api" "/users/{id}") "/api/users/42/extra".toList = false
    ∧ regexSearch (compilePattern "/api" "/users/{id}") "/prefix/api/users/42".toList = true
    ∧ regexSearch (compilePattern "/api" "/users/{id}") "/api/users/".toList = false :=
  ⟨rfl, rfl, rfl, rfl, rfl⟩

/-- C6: the dispatcher returns the unique compiled path whose pattern
matches the request path when exactly one entry matches, and no match when
zero or several entries match. -/
theorem dispatch_unique_match :
    ∀ (matcher : List CompiledPath) (path : String),
      (∀ cp, matcher.filter (fun m => regexSearch m.pattern path.toList) = [cp] →
        dispatch matcher path = some cp)
      ∧ ((matcher.filter (fun m => regexSearch m.pattern path.toList)).length ≠ 1 →
        dispatch matcher path = none) := by
  intro matcher path
  constructor
  · intro cp h
    simp only [dispatch, h]
    rfl
  · intro h
    simp only [dispatch]
    rw [if_neg h]

/-- C6 witness: under basePath "/api" the templates "/x" and "/\x7bid\x7d"
both match "/api/x", so dispatch on both reports no match, while dispatch
on "/x" alone returns its compiled path. -/
theorem dispatch_unique_match_witness :
    dispatch (compileMatcher "/api" ["/x", "/{id}"]) "/api/x" = none
    ∧ dispatch (compileMatcher "/api" ["/x"]) "/api/x" =
        some { name := "/x", pattern := compilePattern "/api" "/x", expected := ["x"] } := by
  constructor
  · exact (dispatch_unique_match (compileMatcher "/api" ["/x", "/{id}"]) "/api/x").2
      (fun hc => by rw [show ((compileMatcher "/api" ["/x", "/{id}"]).filter
        (fun m => regexSearch m.pattern "/api/x".toList)).length = 2 from rfl] at hc; cases hc)
  · exact (dispatch_unique_match (compileMatcher "/api" ["/x"]) "/api/x").1
      { name := "/x", pattern := compilePattern "/api" "/x", expected := ["x"] } rfl

/-- C7 counterexample: the claim "a query/header validator never throws"
fails as stated: a schema with declared type array but no items causes the
access `schema.items.type` to throw (modelled as `.error`) for any present
value. -/
theorem stringValidator_throw_counterexample :
    stringValidator
      { type := some "array", required := false, items := none, collectionFormat := none }
      (fun _ => true) (.str "a") = .error () := rfl

/-- C7 amended: a query/header parameter validator never throws provided
the schema declares items whenever its type is array; all coercion
failures then surface only as the boolean result of the underlying
validation. -/
theorem stringValidator_no_throw_amended :
    ∀ (s : Schema) (v : JSVal → Bool) (value : JSVal),
      (s.type = some "array" → s.items ≠ none) →
      ∃ b : Bool, stringValidator s v value = .ok b := by
  intro s v value h
  cases value with
  | undef => exact ⟨!s.required, rfl⟩
  | null => exact stringValidatorBody_isOk s v _ h
  | bool b => exact stringValidatorBody_isOk s v _ h
  | num n => exact stringValidatorBody_isOk s v _ h
  | str t => exact stringValidatorBody_isOk s v _ h
  | arr xs => exact stringValidatorBody_isOk s v _ h

/-- C7 witness. -/
theorem stringValidator_no_throw_amended_witness :
    ∃ b : Bool, stringValidator numberSchema (fun _ => true) (.str "x") = .ok b :=
  stringValidator_no_throw_amended numberSchema (fun _ => true) (.str "x")
    (fun hc => absurd hc (by decide))

/-- C8: compilation attaches exactly one validator to every parameter and
every response: the compiled document's parameters and responses are in
one-to-one correspondence with the source document's (each compiled entry
carrying its single validator field), so none is left unvalidated. -/
theorem compile_attaches_validators (d : Document) :
    (compile d).paths.map (fun np => (np.1, np.2.operations.map (fun oop =>
        (oop.1, oop.2.parameters.map (fun cp => cp.param),
                oop.2.responses.map (fun sr => (sr.1, sr.2.resp))))))
    = d.paths.map (fun np => (np.1, np.2.operations.map (fun oop =>
        (oop.1, oop.2.parameters.getD [], oop.2.responses)))) := by
  simp [compile, compilePathItem, compileOperation, List.map_map, Function.comp_def,
        compileParameter_param, compileResponse_resp]

/-- C9: for a number/integer schema, the empty string and null have
ToNumber 0 (isNaN false), so they are coerced to the number 0 and handed
to the underlying validator; null is not treated as absent (only undefined
is: with required true the absent case is rejected while null still
reaches the validator). -/
theorem stringValidator_empty_null_coercion :
    ∀ v : JSVal → Bool,
      stringValidator requiredNumberSchema v (.str "") = .ok (v (.num (.fin 0)))
      ∧ stringValidator requiredNumberSchema v .null = .ok (v (.num (.fin 0)))
      ∧ stringValidator requiredNumberSchema v .undef = .ok false :=
  fun _ => ⟨rfl, rfl, rfl⟩

/-- C10: for an array schema, a value that is already an array is not
split, but element-wise coercion per the declared item type still applies:
string elements parse to numbers under a number item type, and the literal
strings "true"/"false" become booleans under a boolean item type. -/
theorem stringValidator_array_passthrough :
    (∀ (s : Schema) (v : JSVal → Bool) (xs : List JSVal) (it : Items),
        s.type = some "array" → s.items = some it →
        stringValidator s v (.arr xs) = .ok (v (.arr (xs.map (coerceItem it.type)))))
    ∧ (∀ v : JSVal → Bool,
        stringValidator arrayNumberSchema v (.arr [.str "5"]) =
          .ok (v (.arr [.num (.fin 5)])))
    ∧ (∀ v : JSVal → Bool,
        stringValidator arrayBooleanSchema v (.arr [.str "true", .str "false", .str "x"]) =
          .ok (v (.arr [.bool true, .bool false, .str "x"])))
    ∧ stringValidator arrayNumberSchema (jsonValidator arrayNumberSchema) (.arr [.str "5"]) =
        .ok true := by
  refine ⟨?_, fun v => rfl, fun v => rfl, rfl⟩
  intro s v xs it hty hit
  obtain ⟨ty, req, its, cf⟩ := s
  replace hty : ty = some "array" := hty
  replace hit : its = some it := hit
  subst hty; subst hit
  rfl

/-- C10 witness. -/
theorem stringValidator_array_passthrough_witness :
    stringValidator arrayNumberSchema (fun _ => true) (.arr [.str "9"]) = .ok true := by
  have h := stringValidator_array_passthrough.1 arrayNumberSchema (fun _ => true) [.str "9"]
    { type := some "number" } rfl rfl
  simpa using h

end Swagger
